import Mathlib

/-!
Verification of the FSFS transaction engine (subversion/libsvn_fs_fs/transaction.c)
against its natural-language specification.

The development shallowly embeds the functions of transaction.c that the
claims concern.  External collaborators (node-revision storage, the rep
cache, file locks held by other processes, checksum computation) are
parameters of the embedded functions: each such parameter stands for the
result of exactly one external call that the C code makes, in the code's
order.  Machine integers are modelled by Nat (counts, offsets) and Int
(svn_revnum_t, which can be the sentinel SVN_INVALID_REVNUM = -1).
Fallible code returns Except FsErr.
-/

namespace SvnFsFs

/-- Error kinds surfaced by the embedded functions.  Each constructor stands
for one family of svn_error_t codes raised in transaction.c:
txnOutOfDate = SVN_ERR_FS_TXN_OUT_OF_DATE, repBeingWritten =
SVN_ERR_FS_REP_BEING_WRITTEN, corrupt = SVN_ERR_FS_CORRUPT, assertionFail =
SVN_ERR_ASSERTION_FAIL (from SVN_ERR_ASSERT), lockFailed = the wrapped APR
error for a non-EAGAIN lock failure, ioFailure = any other propagated I/O
error. -/
inductive FsErr where
  | txnOutOfDate
  | repBeingWritten
  | corrupt
  | assertionFail
  | lockFailed
  | ioFailure
deriving DecidableEq, Repr

/-! ## ChangesFold: fold_change / process_changes -/

/-- Change kinds, mirroring svn_fs_path_change_kind_t. -/
inductive ChangeKind where
  | modify
  | add
  | delete
  | replace
  | reset
deriving DecidableEq, Repr

/-- Public per-path change summary, mirroring svn_fs_path_change2_t as used
by fold_change.  node_rev_id is an abstract key (none = NULL pointer);
copyfrom_rev uses -1 for SVN_INVALID_REVNUM. -/
structure PathChangeInfo where
  node_rev_id : Option Nat
  change_kind : ChangeKind
  text_mod : Bool
  prop_mod : Bool
  copyfrom_rev : Int
  copyfrom_path : Option (List Char)
deriving DecidableEq, Repr

/-- Raw change record (change_t): a path plus the change info.  Paths are
modelled as character lists. -/
structure Change where
  path : List Char
  info : PathChangeInfo
deriving DecidableEq, Repr

/-- The folded per-path change map (apr_hash_t keyed by path), modelled as
an association list; all theorems are stated through lookupPath so the
representation of the hash table is irrelevant. -/
abbrev ChangeMap := List (List Char × PathChangeInfo)

/-- Lookup of a path in the change map (apr_hash_get). -/
def lookupPath : ChangeMap → List Char → Option PathChangeInfo
  | [], _ => none
  | (q, i) :: rest, p => if q = p then some i else lookupPath rest p

/-- Removal of a path from the change map (apr_hash_set with NULL value). -/
def removePath (m : ChangeMap) (p : List Char) : ChangeMap :=
  m.filter (fun e => e.1 ≠ p)

/-- Insertion or replacement of a path's entry (apr_hash_set). -/
def setPath (m : ChangeMap) (p : List Char) (i : PathChangeInfo) : ChangeMap :=
  (p, i) :: removePath m p

/-- Merge one raw CHANGE into the folded map, following fold_change
(transaction.c:588-722).  The four sanity checks run, in source order, only
when the path already has an entry; a change on a fresh path is inserted
without validation.  svn_fs_fs__id_eq is modelled as equality of the
abstract id keys. -/
def foldChange (changes : ChangeMap) (c : Change) : Except FsErr ChangeMap :=
  match lookupPath changes c.path with
  | some old_change =>
    if c.info.node_rev_id = none ∧ c.info.change_kind ≠ ChangeKind.reset then
      Except.error FsErr.corrupt
    else if c.info.node_rev_id ≠ none ∧ c.info.node_rev_id ≠ old_change.node_rev_id
            ∧ old_change.change_kind ≠ ChangeKind.delete then
      Except.error FsErr.corrupt
    else if old_change.change_kind = ChangeKind.delete
            ∧ ¬(c.info.change_kind = ChangeKind.replace
                ∨ c.info.change_kind = ChangeKind.reset
                ∨ c.info.change_kind = ChangeKind.add) then
      Except.error FsErr.corrupt
    else if c.info.change_kind = ChangeKind.add
            ∧ old_change.change_kind ≠ ChangeKind.delete
            ∧ old_change.change_kind ≠ ChangeKind.reset then
      Except.error FsErr.corrupt
    else
      match c.info.change_kind with
      | ChangeKind.reset =>
        Except.ok (removePath changes c.path)
      | ChangeKind.delete =>
        if old_change.change_kind = ChangeKind.add then
          Except.ok (removePath changes c.path)
        else
          Except.ok (setPath changes c.path
            { old_change with
                change_kind := ChangeKind.delete
                text_mod := c.info.text_mod
                prop_mod := c.info.prop_mod
                copyfrom_rev := -1
                copyfrom_path := none })
      | ChangeKind.add =>
        Except.ok (setPath changes c.path
          { old_change with
              change_kind := ChangeKind.replace
              node_rev_id := c.info.node_rev_id
              text_mod := c.info.text_mod
              prop_mod := c.info.prop_mod
              copyfrom_rev := if c.info.copyfrom_rev = -1 then -1 else c.info.copyfrom_rev
              copyfrom_path := if c.info.copyfrom_rev = -1 then none else c.info.copyfrom_path })
      | ChangeKind.replace =>
        Except.ok (setPath changes c.path
          { old_change with
              change_kind := ChangeKind.replace
              node_rev_id := c.info.node_rev_id
              text_mod := c.info.text_mod
              prop_mod := c.info.prop_mod
              copyfrom_rev := if c.info.copyfrom_rev = -1 then -1 else c.info.copyfrom_rev
              copyfrom_path := if c.info.copyfrom_rev = -1 then none else c.info.copyfrom_path })
      | ChangeKind.modify =>
        Except.ok (setPath changes c.path
          { old_change with
              text_mod := old_change.text_mod || c.info.text_mod
              prop_mod := old_change.prop_mod || c.info.prop_mod })
  | none =>
    Except.ok (setPath changes c.path c.info)

/-- Modelled from the spec: svn_dirent_is_child (libsvn_subr/dirent_uri.c is
not under src/).  Per the spec, a path is a strict child of P exactly when
P is a prefix of it ending at a path separator, or P is the root (the empty
path): either P is empty and the child is not, or P ends in a separator and
the child strictly extends it, or the child strictly extends P followed by
a separator. -/
def dirent_is_child (parent child : List Char) : Bool :=
  if parent.isEmpty then
    !child.isEmpty
  else if parent.getLast? = some '/' then
    parent.isPrefixOf child && decide (parent.length < child.length)
  else
    (parent ++ ['/']).isPrefixOf child && decide (parent.length + 1 < child.length)

/-- Minimum length a potential child path must have, as computed by
process_changes (transaction.c:762-767). -/
def minChildLen (parent : List Char) : Nat :=
  if parent.length = 0 then 1
  else if parent.getLast? = some '/' then parent.length + 1
  else parent.length + 2

/-- Removal of every entry that is a strict child of PARENT, following the
inner loop of process_changes (transaction.c:773-789): an entry is removed
when its key is at least minChildLen long and dirent_is_child holds. -/
def stripChildren (parent : List Char) (m : ChangeMap) : ChangeMap :=
  m.filter (fun e =>
    !(decide (minChildLen parent ≤ e.1.length) && dirent_is_child parent e.1))

/-- Processing of a single change record by the loop body of
process_changes (transaction.c:738-794): fold it, then, when it is a
deletion or replacement, blow away all child entries. -/
def processOne (m : ChangeMap) (c : Change) : Except FsErr ChangeMap :=
  match foldChange m c with
  | Except.error e => Except.error e
  | Except.ok m₁ =>
    if c.info.change_kind = ChangeKind.delete
        ∨ c.info.change_kind = ChangeKind.replace then
      Except.ok (stripChildren c.path m₁)
    else
      Except.ok m₁

/-- Folding of the whole ordered change log, following process_changes;
svn_fs_fs__txn_changes_fetch reads the log and calls this on an initially
empty map. -/
def processChanges (m : ChangeMap) : List Change → Except FsErr ChangeMap
  | [] => Except.ok m
  | c :: rest =>
    match processOne m c with
    | Except.error e => Except.error e
    | Except.ok m₁ => processChanges m₁ rest

/-! ## DeltaBase: choose_delta_base -/

/-- Representation record (representation_t), restricted to the fields the
claims mention.  revision is an svn_revnum_t: -1 (SVN_INVALID_REVNUM) for a
representation that still lives in a transaction.  The checksum, uniquifier
and txn_id fields are opaque to every claim and are omitted. -/
structure Representation where
  revision : Int
  offset : Nat
  size : Nat
  expanded_size : Nat
deriving DecidableEq, Repr

/-- Node-revision record (node_revision_t), restricted to the fields
choose_delta_base and the rep writers read.  id_rev is
svn_fs_fs__id_rev(noderev->id); predecessor_id is an abstract key into the
node store (none = NULL). -/
structure NodeRevision where
  id_rev : Int
  predecessor_id : Option Nat
  predecessor_count : Nat
  prop_rep : Option Representation
  data_rep : Option Representation
deriving DecidableEq, Repr

/-- Condition under which choose_delta_base flags a walked node-revision as
a possible shared rep (transaction.c:1643-1654): the prop rep (for PROPS)
or data rep (otherwise) exists and the owner's id revision is greater than
the rep's revision. -/
def maybeSharedCond (props : Bool) (n : NodeRevision) : Bool :=
  if props then
    match n.prop_rep with
    | some r => decide (n.id_rev > r.revision)
    | none => false
  else
    match n.data_rep with
    | some r => decide (n.id_rev > r.revision)
    | none => false

/-- Formalisation of claim C6's flag condition, written from the claim's
words for comparison with maybeSharedCond: the rep satisfies
revision > id_rev(owner). -/
def claimSharedCond (props : Bool) (n : NodeRevision) : Bool :=
  if props then
    match n.prop_rep with
    | some r => decide (r.revision > n.id_rev)
    | none => false
  else
    match n.data_rep with
    | some r => decide (r.revision > n.id_rev)
    | none => false

/-- Predecessor walk of choose_delta_base (transaction.c:1628-1655): follow
predecessor_id back the given number of steps, fetching each node-revision
through the node store G and accumulating the maybe_shared_rep flag.  A
missing predecessor makes svn_fs_fs__get_node_revision fail. -/
def walkBack (g : Nat → Option NodeRevision) (props : Bool) :
    Nat → NodeRevision → Bool → Except FsErr (NodeRevision × Bool)
  | 0, base, shared => Except.ok (base, shared)
  | n + 1, base, shared =>
    match base.predecessor_id with
    | none => Except.error FsErr.corrupt
    | some pid =>
      match g pid with
      | none => Except.error FsErr.corrupt
      | some nb => walkBack g props n nb (shared || maybeSharedCond props nb)

/-- List of the node-revisions fetched during the predecessor walk, in walk
order; used to state which nodes choose_delta_base examined. -/
def walkVisited (g : Nat → Option NodeRevision) :
    Nat → NodeRevision → Except FsErr (List NodeRevision)
  | 0, _ => Except.ok []
  | n + 1, base =>
    match base.predecessor_id with
    | none => Except.error FsErr.corrupt
    | some pid =>
      match g pid with
      | none => Except.error FsErr.corrupt
      | some nb =>
        match walkVisited g n nb with
        | Except.error e => Except.error e
        | Except.ok l => Except.ok (nb :: l)

/-- Final shared-rep safeguard of choose_delta_base (transaction.c:1662-1674):
when a base rep was chosen and the maybe_shared_rep flag is set, discard it
if the delta chain rooted at it (length supplied by the external
svn_fs_fs__rep_chain_length) is at least 2 * max_linear_deltification + 2. -/
def applySharedRepGuard (maxLinear : Nat) (chainLen : Representation → Nat)
    (flag : Bool) (rep : Option Representation) : Option Representation :=
  match rep with
  | some r =>
    if flag && decide (chainLen r ≥ 2 * maxLinear + 2) then none else some r
  | none => none

/-- Skip-delta base selection, following choose_delta_base
(transaction.c:1571-1677).  G is the node store, chainLen the external
rep-chain-length oracle, maxLinear and maxWalk the tunables
max_linear_deltification and max_deltification_walk. -/
def choose_delta_base (g : Nat → Option NodeRevision)
    (chainLen : Representation → Nat) (maxLinear maxWalk : Nat)
    (noderev : NodeRevision) (props : Bool) :
    Except FsErr (Option Representation) :=
  if noderev.predecessor_count = 0 then Except.ok none
  else
    let count0 := Nat.land noderev.predecessor_count (noderev.predecessor_count - 1)
    let walk := noderev.predecessor_count - count0
    let count := if walk < maxLinear then noderev.predecessor_count - 1 else count0
    if walk > maxWalk then Except.ok none
    else
      match walkBack g props (noderev.predecessor_count - count) noderev false with
      | Except.error e => Except.error e
      | Except.ok (base, flag) =>
        Except.ok (applySharedRepGuard maxLinear chainLen flag
          (if props then base.prop_rep else base.data_rep))

/-! ## RepWriter close and write_hash_rep -/

/-- Fields of rep_write_baton that rep_write_contents_close reads: the
proto-rev file contents at close time (after all svndiff bytes were
flushed), the offset recorded before the rep header was written, the offset
of the svndiff data, and the expanded-size counter. -/
structure RepWriteBaton where
  file : List Char
  rep_offset : Nat
  delta_start : Nat
  rep_size : Nat
deriving DecidableEq, Repr

/-- Close handler for a file-content representation writer, following
rep_write_contents_close (transaction.c:1894-1963).  SHARED is the result
of the external get_shared_rep lookup (rep cache, sha1 files): some
existing rep, or none.  Returns the new proto-rev file contents and the
updated node-revision. -/
def rep_write_contents_close (b : RepWriteBaton) (noderev : NodeRevision)
    (shared : Option Representation) : List Char × NodeRevision :=
  let rep : Representation :=
    { revision := -1
      offset := b.rep_offset
      size := b.file.length - b.delta_start
      expanded_size := b.rep_size }
  match shared with
  | some old_rep =>
    (b.file.take b.rep_offset, { noderev with data_rep := some old_rep })
  | none =>
    (b.file ++ ("ENDREP\n".toList), { noderev with data_rep := some rep })

/-- Committer-side plain (un-deltified) rep writer, following write_hash_rep
(transaction.c:2145-2200).  REP is the caller's representation record (the
caller already stamped its revision); hashBytes is the serialized hash
(svn_hash_write2 output); SHARED is the external get_shared_rep result.
The record offset is taken before writing; the PLAIN header goes to the
file directly while only the serialized hash passes through the
size-counting stream; on a match the file is truncated back to the
offset and the old rep is copied over REP, otherwise the ENDREP trailer is
appended and size / expanded_size are filled in. -/
def write_hash_rep (rep : Representation) (file : List Char)
    (hashBytes : List Char) (shared : Option Representation) :
    List Char × Representation :=
  let rep₁ := { rep with offset := file.length }
  let file₁ := (file ++ ("PLAIN\n".toList)) ++ hashBytes
  match shared with
  | some old_rep => (file₁.take rep₁.offset, old_rep)
  | none =>
    (file₁ ++ ("ENDREP\n".toList),
     { rep₁ with size := hashBytes.length, expanded_size := 0 })

/-! ## Committer: validate_root_noderev and commit_body -/

/-- Root-noderev continuity check, following validate_root_noderev
(transaction.c:2317-2370).  head_pred_count is the predecessor count of the
head root noderev (read externally); root_pred_count that of the candidate
root; REV the revision being committed.  SVN_ERR_ASSERT(rev > 0) fails
first; then the check is skipped when the candidate count is -1
(unknown). -/
def validate_root_noderev (head_pred_count root_pred_count rev : Int) :
    Except FsErr Unit :=
  if rev ≤ 0 then Except.error FsErr.assertionFail
  else
    let head_revnum := rev - 1
    if root_pred_count ≠ -1
        ∧ root_pred_count - head_pred_count ≠ rev - head_revnum then
      Except.error FsErr.corrupt
    else
      Except.ok ()

/-! ## ProtoRevLock: get_writable_proto_rev_body -/

/-- Result of the non-blocking apr_file_lock attempt on the proto-rev lock
file: acquired, EAGAIN (held by another process), or some other APR
error. -/
inductive LockAttempt where
  | acquired
  | eagain
  | otherErr
deriving DecidableEq, Repr

/-- In-process state read and written by get_writable_proto_rev_body for
one transaction: the registry's being_written flag (a missing registry
entry is created with the flag clear, so a Bool suffices) and the current
length of the proto-rev file. -/
structure ProtoRevState where
  being_written : Bool
  proto_len : Nat
deriving DecidableEq, Repr

/-- Outcomes of the external file operations get_writable_proto_rev_body
performs, in source order: opening (creating) the lock file, the
non-blocking exclusive lock attempt, and opening the proto-rev file plus
the seek to its end.  The two open calls can only fail with an I/O error
(svn_io_file_open never produces REP_BEING_WRITTEN), so a Bool records
their success. -/
structure ProtoRevOracles where
  openLockOk : Bool
  lockAttempt : LockAttempt
  openProtoSeekOk : Bool
deriving DecidableEq, Repr

/-- Handle returned on success: a file positioned at POS. -/
structure ProtoFileHandle where
  pos : Nat
deriving DecidableEq, Repr

/-- Acquisition of the writable proto-rev file, following
get_writable_proto_rev_body (transaction.c:318-415), run under
txn_list_lock.  Checks the in-process being_written flag first; then opens
and tries to lock the lock file (EAGAIN maps to REP_BEING_WRITTEN, any
other lock failure to the wrapped APR error); on success sets
being_written, then opens the proto-rev file and seeks to the end,
releasing the lock (clearing being_written) if that fails. -/
def get_writable_proto_rev_body (st : ProtoRevState) (ext : ProtoRevOracles) :
    ProtoRevState × Except FsErr ProtoFileHandle :=
  if st.being_written then
    (st, Except.error FsErr.repBeingWritten)
  else if !ext.openLockOk then
    (st, Except.error FsErr.ioFailure)
  else
    match ext.lockAttempt with
    | LockAttempt.eagain => (st, Except.error FsErr.repBeingWritten)
    | LockAttempt.otherErr => (st, Except.error FsErr.lockFailed)
    | LockAttempt.acquired =>
      let st₁ := { st with being_written := true }
      if !ext.openProtoSeekOk then
        ({ st₁ with being_written := false }, Except.error FsErr.ioFailure)
      else
        (st₁, Except.ok { pos := st.proto_len })

/-! ## Committer: commit_body -/

/-- Transaction attributes commit_body reads. -/
structure Txn where
  base_rev : Nat
deriving DecidableEq, Repr

/-- Published on-disk state that commit_body can change: the revision named
by the current file, the set of revision files present, and whether the
transaction directory still exists.  The proto-rev file contents are
modelled separately (RepWriter section). -/
structure FsState where
  current : Nat
  revs : List Nat
  txn_present : Bool
deriving DecidableEq, Repr

/-- Outcomes of the external steps of commit_body, one per call site, in
source order (modern format; the legacy next-ids bookkeeping is not
exercised by any claim).  writeFinalRev and writeChangedPaths return the
root-noderev offset and the changed-path offset on success. -/
structure CommitOracles where
  verifyLocks : Except FsErr Unit
  getProtoRev : Except FsErr Unit
  writeFinalRev : Except FsErr Nat
  writeChangedPaths : Except FsErr Nat
  writeTrailerFlushClose : Except FsErr Unit
  cleanupTxnProps : Except FsErr Unit
  moveRevFileIntoPlace : Except FsErr Unit
  unlockProtoRev : Except FsErr Unit
  moveRevPropsIntoPlace : Except FsErr Unit
  verifyBeforeBump : Except FsErr Unit
  writeCurrent : Except FsErr Unit
  purgeTxn : Except FsErr Unit
deriving Repr

/-- Commit under the repository write lock, following commit_body
(transaction.c:2799-2979): read old_rev from the current file; reject an
out-of-date transaction before anything else; verify locks; set
new_rev = old_rev + 1; assemble the revision in the proto-rev file; move
it into place (the revision file appears); unlock; move revprops; write
the current file (the head advances); purge the transaction.  Each failing
step returns the state reached so far together with the error. -/
def commit_body (st : FsState) (txn : Txn) (ext : CommitOracles) :
    FsState × Except FsErr Nat :=
  let old_rev := st.current
  if txn.base_rev ≠ old_rev then (st, Except.error FsErr.txnOutOfDate)
  else
    match ext.verifyLocks with
    | Except.error e => (st, Except.error e)
    | Except.ok _ =>
      let new_rev := old_rev + 1
      match ext.getProtoRev with
      | Except.error e => (st, Except.error e)
      | Except.ok _ =>
        match ext.writeFinalRev with
        | Except.error e => (st, Except.error e)
        | Except.ok _ =>
          match ext.writeChangedPaths with
          | Except.error e => (st, Except.error e)
          | Except.ok _ =>
            match ext.writeTrailerFlushClose with
            | Except.error e => (st, Except.error e)
            | Except.ok _ =>
              match ext.cleanupTxnProps with
              | Except.error e => (st, Except.error e)
              | Except.ok _ =>
                match ext.moveRevFileIntoPlace with
                | Except.error e => (st, Except.error e)
                | Except.ok _ =>
                  let st₁ := { st with revs := new_rev :: st.revs }
                  match ext.unlockProtoRev with
                  | Except.error e => (st₁, Except.error e)
                  | Except.ok _ =>
                    match ext.moveRevPropsIntoPlace with
                    | Except.error e => (st₁, Except.error e)
                    | Except.ok _ =>
                      match ext.verifyBeforeBump with
                      | Except.error e => (st₁, Except.error e)
                      | Except.ok _ =>
                        match ext.writeCurrent with
                        | Except.error e => (st₁, Except.error e)
                        | Except.ok _ =>
                          let st₂ := { st₁ with current := new_rev }
                          match ext.purgeTxn with
                          | Except.error e => (st₂, Except.error e)
                          | Except.ok _ =>
                            ({ st₂ with txn_present := false },
                             Except.ok new_rev)

/-! ## Concrete-value builders for witnesses and counterexamples -/

/-- Shorthand constructor for concrete change infos used in witnesses and
counterexamples: no copy-from source, explicit id, kind and mod bits. -/
def mkInfo (id : Option Nat) (k : ChangeKind) (t p : Bool) : PathChangeInfo :=
  { node_rev_id := id, change_kind := k, text_mod := t, prop_mod := p,
    copyfrom_rev := -1, copyfrom_path := none }

/-- Shorthand constructor for concrete representations used in witnesses
and counterexamples. -/
def mkRep (rev : Int) : Representation :=
  { revision := rev, offset := 0, size := 0, expanded_size := 0 }

/-- Shorthand constructor for concrete node-revisions (with no prop rep)
used in witnesses and counterexamples. -/
def mkNode (idr : Int) (pred : Option Nat) (pc : Nat)
    (dr : Option Representation) : NodeRevision :=
  { id_rev := idr, predecessor_id := pred, predecessor_count := pc,
    prop_rep := none, data_rep := dr }

/-! ## Helper lemmas about the change map -/

/-- Lookup in a map filtered by a key-only predicate keeps exactly the
entries whose key passes. -/
theorem lookupPath_filter (f : List Char → Bool) (m : ChangeMap) (q : List Char) :
    lookupPath (m.filter (fun e => f e.1)) q
      = if f q = true then lookupPath m q else none := by
  induction m with
  | nil => cases h : f q <;> simp [lookupPath, h]
  | cons e rest ih =>
    obtain ⟨a, i⟩ := e
    by_cases h1 : a = q
    · subst h1
      cases h2 : f a <;> simp [List.filter_cons, lookupPath, h2, ih]
    · cases h2 : f a <;> simp [List.filter_cons, lookupPath, h1, h2, ih]

/-- Lookup after removePath. -/
theorem lookupPath_removePath (m : ChangeMap) (p q : List Char) :
    lookupPath (removePath m p) q = if q = p then none else lookupPath m q := by
  have h := lookupPath_filter (fun k => decide (k ≠ p)) m q
  unfold removePath
  by_cases hq : q = p <;> simp [hq] at h ⊢ <;> exact h

/-- Lookup after setPath. -/
theorem lookupPath_setPath (m : ChangeMap) (p : List Char) (i : PathChangeInfo)
    (q : List Char) :
    lookupPath (setPath m p i) q = if q = p then some i else lookupPath m q := by
  unfold setPath
  by_cases hq : q = p
  · simp [lookupPath, hq]
  · simp [lookupPath, hq, Ne.symm hq, lookupPath_removePath]

/-- Lookup after stripChildren. -/
theorem lookupPath_stripChildren (parent : List Char) (m : ChangeMap)
    (q : List Char) :
    lookupPath (stripChildren parent m) q
      = if (decide (minChildLen parent ≤ q.length) && dirent_is_child parent q) = true
        then none else lookupPath m q := by
  have h := lookupPath_filter
    (fun k => !(decide (minChildLen parent ≤ k.length) && dirent_is_child parent k)) m q
  unfold stripChildren
  cases hc : decide (minChildLen parent ≤ q.length) && dirent_is_child parent q <;>
    simp [hc] at h ⊢ <;> exact h

/-- A strict child is always at least minChildLen long, so the length guard
of process_changes never lets a real child escape removal. -/
theorem minChildLen_le_of_child (parent q : List Char)
    (h : dirent_is_child parent q = true) : minChildLen parent ≤ q.length := by
  unfold dirent_is_child at h
  unfold minChildLen
  by_cases h0 : parent.isEmpty
  · have hl : parent.length = 0 := by
      cases parent <;> simp_all [List.isEmpty]
    simp [h0] at h
    simp [hl]
    cases q <;> simp_all
  · have hl : ¬parent.length = 0 := by
      cases parent <;> simp_all [List.isEmpty]
    by_cases hsl : parent.getLast? = some '/'
    · simp [h0, hsl, Bool.and_eq_true, decide_eq_true_eq] at h
      simp [hl, hsl]
      omega
    · simp [h0, hsl, Bool.and_eq_true, decide_eq_true_eq] at h
      simp [hl, hsl]
      omega

/-- A path is never a strict child of itself. -/
theorem dirent_is_child_self (p : List Char) : dirent_is_child p p = false := by
  unfold dirent_is_child
  by_cases h0 : p.isEmpty
  · simp [h0]
  · by_cases hsl : p.getLast? = some '/' <;> simp [h0, hsl]

/-- C7: after folding a delete or replace change record on path P into the
per-path change map, every existing entry whose path is a strict child of
P is removed from the map (P taken as a prefix ending at a path separator,
or P the root); entries for P itself and for non-descendant paths
remain. -/
theorem processOne_delete_removes_children (m m₁ m₂ : ChangeMap) (c : Change)
    (hk : c.info.change_kind = ChangeKind.delete
          ∨ c.info.change_kind = ChangeKind.replace)
    (hf : foldChange m c = Except.ok m₁)
    (hp : processOne m c = Except.ok m₂) :
    (∀ q, dirent_is_child c.path q = true → lookupPath m₂ q = none)
    ∧ (∀ q, dirent_is_child c.path q = false → lookupPath m₂ q = lookupPath m₁ q)
    ∧ lookupPath m₂ c.path = lookupPath m₁ c.path := by
  have hm₂ : m₂ = stripChildren c.path m₁ := by
    unfold processOne at hp
    rw [hf] at hp
    rcases hk with hk | hk <;> simp [hk] at hp <;> exact hp.symm
  subst hm₂
  refine ⟨?_, ?_, ?_⟩
  · intro q hq
    rw [lookupPath_stripChildren]
    simp [hq, minChildLen_le_of_child c.path q hq]
  · intro q hq
    rw [lookupPath_stripChildren]
    simp [hq]
  · rw [lookupPath_stripChildren]
    simp [dirent_is_child_self]

/-- Witness instantiating the C7 theorem: deleting the directory a removes
the previously folded entry for its child a/b, evaluated on concrete
maps. -/
theorem processOne_delete_removes_children_witness :
    lookupPath
      ([(['a'], mkInfo (some 7) ChangeKind.delete false false),
        (['a', '/', 'b'], mkInfo (some 3) ChangeKind.add true false),
        (['c'], mkInfo (some 4) ChangeKind.modify true false)].filter
        (fun e => !(decide (minChildLen ['a'] ≤ e.1.length)
                    && dirent_is_child ['a'] e.1)))
      ['a', '/', 'b'] = none := by
  have h := processOne_delete_removes_children
    [(['a', '/', 'b'], mkInfo (some 3) ChangeKind.add true false),
     (['c'], mkInfo (some 4) ChangeKind.modify true false)]
    [(['a'], mkInfo (some 7) ChangeKind.delete false false),
     (['a', '/', 'b'], mkInfo (some 3) ChangeKind.add true false),
     (['c'], mkInfo (some 4) ChangeKind.modify true false)]
    ([(['a'], mkInfo (some 7) ChangeKind.delete false false),
      (['a', '/', 'b'], mkInfo (some 3) ChangeKind.add true false),
      (['c'], mkInfo (some 4) ChangeKind.modify true false)].filter
      (fun e => !(decide (minChildLen ['a'] ≤ e.1.length)
                  && dirent_is_child ['a'] e.1)))
    { path := ['a'], info := mkInfo (some 7) ChangeKind.delete false false }
    (Or.inl rfl) rfl rfl
  exact h.1 ['a', '/', 'b'] rfl

/-- C8 counterexample: a modify record with a null node_rev_id on a path
not yet present in the map folds without error, so folding does not raise
CORRUPT for every null-id non-reset record. -/
theorem fold_null_id_fresh_path_no_error :
    processChanges []
      [{ path := ['a'], info := mkInfo none ChangeKind.modify true false }]
      = Except.ok [(['a'], mkInfo none ChangeKind.modify true false)]
    ∧ (mkInfo none ChangeKind.modify true false).node_rev_id = none
    ∧ (mkInfo none ChangeKind.modify true false).change_kind ≠ ChangeKind.reset := by
  refine ⟨rfl, rfl, by decide⟩

/-- C8 amended: folding a change record whose node_rev_id is null and whose
kind is not reset raises CORRUPT exactly when the change map already has an
entry for the record's path; a first record on a fresh path is inserted
without validation. -/
theorem fold_null_id_existing_entry_corrupt (m : ChangeMap) (c : Change)
    (old : PathChangeInfo)
    (hl : lookupPath m c.path = some old)
    (hid : c.info.node_rev_id = none)
    (hk : c.info.change_kind ≠ ChangeKind.reset) :
    foldChange m c = Except.error FsErr.corrupt := by
  unfold foldChange
  rw [hl]
  simp [hid, hk]

/-- Witness instantiating the C8 amended theorem on a concrete map that
already holds an entry for the path. -/
theorem fold_null_id_existing_entry_corrupt_witness :
    foldChange [(['a'], mkInfo (some 3) ChangeKind.add true false)]
      { path := ['a'], info := mkInfo none ChangeKind.modify true false }
      = Except.error FsErr.corrupt :=
  fold_null_id_existing_entry_corrupt _ _
    (mkInfo (some 3) ChangeKind.add true false) rfl rfl (by decide)

/-- C10: a plain (un-deltified) representation written by write_hash_rep
with no shared match records expanded_size = 0 while its size field holds
the byte count of the PLAIN body (the serialized hash). -/
theorem write_hash_rep_plain_sizes (rep : Representation)
    (file hashBytes : List Char) :
    (write_hash_rep rep file hashBytes none).2.expanded_size = 0
    ∧ (write_hash_rep rep file hashBytes none).2.size = hashBytes.length :=
  ⟨rfl, rfl⟩

/-- C2: committing a transaction whose base revision differs from the head
fails with TXN_OUT_OF_DATE and leaves the on-disk state untouched; the
check runs before any write to the proto-rev file or the current file. -/
theorem commit_body_out_of_date (st : FsState) (txn : Txn) (ext : CommitOracles)
    (h : txn.base_rev ≠ st.current) :
    commit_body st txn ext = (st, Except.error FsErr.txnOutOfDate) := by
  unfold commit_body
  simp [h]

/-- Witness instantiating the C2 theorem: a transaction based on revision 4
committed while the head is 5 is rejected and the state is returned
unchanged. -/
theorem commit_body_out_of_date_witness :
    commit_body { current := 5, revs := [5], txn_present := true }
      { base_rev := 4 }
      { verifyLocks := Except.ok (), getProtoRev := Except.ok (),
        writeFinalRev := Except.ok 0, writeChangedPaths := Except.ok 0,
        writeTrailerFlushClose := Except.ok (), cleanupTxnProps := Except.ok (),
        moveRevFileIntoPlace := Except.ok (), unlockProtoRev := Except.ok (),
        moveRevPropsIntoPlace := Except.ok (), verifyBeforeBump := Except.ok (),
        writeCurrent := Except.ok (), purgeTxn := Except.ok () }
      = ({ current := 5, revs := [5], txn_present := true },
         Except.error FsErr.txnOutOfDate) :=
  commit_body_out_of_date _ _ _ (by decide)

/-- C1: every successful commit returns exactly old head plus one and
advances the head by exactly one: commit_body reads old_rev from the
current file, sets new_rev = old_rev + 1 and publishes that number. -/
theorem commit_body_advances_head_by_one (st : FsState) (txn : Txn)
    (ext : CommitOracles) (st' : FsState) (r : Nat)
    (h : commit_body st txn ext = (st', Except.ok r)) :
    r = st.current + 1 ∧ st'.current = st.current + 1 := by
  unfold commit_body at h
  by_cases hb : txn.base_rev = st.current
  case neg => simp [hb] at h
  case pos =>
  simp only [hb, ne_eq, not_true_eq_false, if_false] at h
  rcases h1 : ext.verifyLocks with e | u <;> simp only [h1] at h
  case error => simp at h
  rcases h2 : ext.getProtoRev with e | u <;> simp only [h2] at h
  case error => simp at h
  rcases h3 : ext.writeFinalRev with e | u <;> simp only [h3] at h
  case error => simp at h
  rcases h4 : ext.writeChangedPaths with e | u <;> simp only [h4] at h
  case error => simp at h
  rcases h5 : ext.writeTrailerFlushClose with e | u <;> simp only [h5] at h
  case error => simp at h
  rcases h6 : ext.cleanupTxnProps with e | u <;> simp only [h6] at h
  case error => simp at h
  rcases h7 : ext.moveRevFileIntoPlace with e | u <;> simp only [h7] at h
  case error => simp at h
  rcases h8 : ext.unlockProtoRev with e | u <;> simp only [h8] at h
  case error => simp at h
  rcases h9 : ext.moveRevPropsIntoPlace with e | u <;> simp only [h9] at h
  case error => simp at h
  rcases h10 : ext.verifyBeforeBump with e | u <;> simp only [h10] at h
  case error => simp at h
  rcases h11 : ext.writeCurrent with e | u <;> simp only [h11] at h
  case error => simp at h
  rcases h12 : ext.purgeTxn with e | u <;> simp only [h12] at h
  case error => simp at h
  simp at h
  obtain ⟨hst, hr⟩ := h
  subst hr
  constructor
  · rfl
  · rw [← hst]

/-- Witness instantiating the C1 theorem: a commit at head 5 with every
external step succeeding yields revision 6 and head 6. -/
theorem commit_body_advances_head_by_one_witness :
    (6 : Nat) = 5 + 1
    ∧ (FsState.current { current := 6, revs := [6, 5], txn_present := false })
        = 5 + 1 :=
  commit_body_advances_head_by_one
    { current := 5, revs := [5], txn_present := true } { base_rev := 5 }
    { verifyLocks := Except.ok (), getProtoRev := Except.ok (),
      writeFinalRev := Except.ok 17, writeChangedPaths := Except.ok 99,
      writeTrailerFlushClose := Except.ok (), cleanupTxnProps := Except.ok (),
      moveRevFileIntoPlace := Except.ok (), unlockProtoRev := Except.ok (),
      moveRevPropsIntoPlace := Except.ok (), verifyBeforeBump := Except.ok (),
      writeCurrent := Except.ok (), purgeTxn := Except.ok () }
    { current := 6, revs := [6, 5], txn_present := false } 6 rfl

/-- C3: acquiring the writable proto-rev file fails with REP_BEING_WRITTEN
in exactly two cases — the in-process being_written flag for the txn is
already set (checked first, under txn_list_lock), or the non-blocking
exclusive lock on the proto-rev lock file is held by another process — and
on success being_written is set and the returned handle is positioned at
the end of the proto-rev file. -/
theorem proto_rev_acquire_cases (st : ProtoRevState) (ext : ProtoRevOracles) :
    ((get_writable_proto_rev_body st ext).2 = Except.error FsErr.repBeingWritten
      ↔ (st.being_written = true
         ∨ (st.being_written = false ∧ ext.openLockOk = true
            ∧ ext.lockAttempt = LockAttempt.eagain)))
    ∧ (∀ (st' : ProtoRevState) (h : ProtoFileHandle),
        get_writable_proto_rev_body st ext = (st', Except.ok h) →
        st'.being_written = true ∧ h.pos = st.proto_len) := by
  obtain ⟨bw, pl⟩ := st
  obtain ⟨ol, la, op⟩ := ext
  constructor
  · cases bw <;> cases ol <;> cases la <;> cases op <;>
      simp [get_writable_proto_rev_body]
  · intro st' h hh
    cases bw <;> cases ol <;> cases la <;> cases op <;>
      simp [get_writable_proto_rev_body] at hh
    obtain ⟨h1, h2⟩ := hh
    subst h1
    subst h2
    exact ⟨rfl, rfl⟩

/-- Witness instantiating the C3 theorem: with the flag clear and no
contention, acquisition succeeds, sets being_written, and positions the
handle at the file end (length 7). -/
theorem proto_rev_acquire_cases_witness :
    ProtoRevState.being_written { being_written := true, proto_len := 7 } = true
    ∧ ProtoFileHandle.pos { pos := 7 } = 7 :=
  (proto_rev_acquire_cases { being_written := false, proto_len := 7 }
      { openLockOk := true, lockAttempt := LockAttempt.acquired,
        openProtoSeekOk := true }).2
    { being_written := true, proto_len := 7 } { pos := 7 } rfl

/-- C4: when rep-sharing finds an equivalent existing representation at
close, the proto-rev file is truncated back to rep_offset — recovering
exactly the contents from before the rep was written — and the noderev is
pointed at the existing rep; when no match is found the literal bytes
ENDREP newline are appended and the newly written rep is kept; and
write_hash_rep applies the same truncate-or-ENDREP policy for
committer-written reps. -/
theorem rep_close_truncate_or_endrep (f₀ d : List Char) (ds rs : Nat)
    (nd : NodeRevision) (old : Representation) (rep : Representation)
    (file hashBytes : List Char) :
    (rep_write_contents_close
        { file := f₀ ++ d, rep_offset := f₀.length, delta_start := ds,
          rep_size := rs } nd (some old)
      = (f₀, { nd with data_rep := some old }))
    ∧ (rep_write_contents_close
        { file := f₀ ++ d, rep_offset := f₀.length, delta_start := ds,
          rep_size := rs } nd none
      = ((f₀ ++ d) ++ ("ENDREP\n".toList),
         { nd with data_rep := some { revision := -1, offset := f₀.length,
                                      size := (f₀ ++ d).length - ds,
                                      expanded_size := rs } }))
    ∧ (write_hash_rep rep file hashBytes (some old) = (file, old))
    ∧ (write_hash_rep rep file hashBytes none
      = (((file ++ ("PLAIN\n".toList)) ++ hashBytes) ++ ("ENDREP\n".toList),
         { rep with offset := file.length, size := hashBytes.length,
                    expanded_size := 0 })) := by
  refine ⟨?_, rfl, ?_, rfl⟩
  · simp [rep_write_contents_close, List.take_left]
  · simp [write_hash_rep, List.append_assoc, List.take_left]

/-- C5: choose_delta_base follows the skip-delta selection: a noderev with
predecessor_count 0 gets no base; otherwise count is predecessor_count
with its lowest set bit cleared and walk = predecessor_count - count,
count is replaced by predecessor_count - 1 whenever
walk < max_linear_deltification, no base is returned whenever
walk > max_deltification_walk, and otherwise the predecessor chain is
walked back predecessor_count - count steps and that node's prop or data
rep is the chosen candidate (subject to the final shared-rep guard). -/
theorem choose_delta_base_skip_delta (g : Nat → Option NodeRevision)
    (chainLen : Representation → Nat) (ml mw : Nat) (nr : NodeRevision)
    (props : Bool) :
    (nr.predecessor_count = 0 →
        choose_delta_base g chainLen ml mw nr props = Except.ok none)
    ∧ (nr.predecessor_count ≠ 0 →
        mw < nr.predecessor_count
                - Nat.land nr.predecessor_count (nr.predecessor_count - 1) →
        choose_delta_base g chainLen ml mw nr props = Except.ok none)
    ∧ (nr.predecessor_count ≠ 0 →
        nr.predecessor_count
            - Nat.land nr.predecessor_count (nr.predecessor_count - 1) ≤ mw →
        ∀ (base : NodeRevision) (flag : Bool),
          walkBack g props
            (nr.predecessor_count -
              (if nr.predecessor_count
                    - Nat.land nr.predecessor_count (nr.predecessor_count - 1)
                    < ml
               then nr.predecessor_count - 1
               else Nat.land nr.predecessor_count (nr.predecessor_count - 1)))
            nr false = Except.ok (base, flag) →
          choose_delta_base g chainLen ml mw nr props
            = Except.ok (applySharedRepGuard ml chainLen flag
                (if props then base.prop_rep else base.data_rep))) := by
  refine ⟨?_, ?_, ?_⟩
  · intro h0
    simp [choose_delta_base, h0]
  · intro h0 hw
    simp [choose_delta_base, h0, hw]
  · intro h0 hw base flag hwb
    simp only [choose_delta_base, h0, if_false, Nat.not_lt.mpr hw]
    rw [hwb]

/-- Witness instantiating the C5 theorem on a node with predecessor_count
6 (count becomes 4, walk 2): the base is the node two predecessors back
and its data rep is chosen; the zero-predecessor and excessive-walk cases
yield no base. -/
theorem choose_delta_base_skip_delta_witness :
    choose_delta_base
        (fun i => if i = 10 then some (mkNode 5 (some 11) 5 (some (mkRep 5)))
                  else if i = 11 then some (mkNode 4 (some 12) 4 (some (mkRep 4)))
                  else none)
        (fun _ => 0) 1 10 (mkNode 6 (some 10) 6 (some (mkRep 6))) false
      = Except.ok (some (mkRep 4))
    ∧ choose_delta_base (fun _ => none) (fun _ => 0) 1 10
        (mkNode 0 none 0 none) false = Except.ok none
    ∧ choose_delta_base (fun _ => none) (fun _ => 0) 1 1
        (mkNode 6 (some 10) 6 (some (mkRep 6))) false = Except.ok none := by
  refine ⟨?_, ?_, ?_⟩
  · exact (choose_delta_base_skip_delta
      (fun i => if i = 10 then some (mkNode 5 (some 11) 5 (some (mkRep 5)))
                else if i = 11 then some (mkNode 4 (some 12) 4 (some (mkRep 4)))
                else none)
      (fun _ => 0) 1 10 (mkNode 6 (some 10) 6 (some (mkRep 6))) false).2.2
      (by decide) (by decide)
      (mkNode 4 (some 12) 4 (some (mkRep 4))) false rfl
  · exact (choose_delta_base_skip_delta (fun _ => none) (fun _ => 0) 1 10
      (mkNode 0 none 0 none) false).1 rfl
  · exact (choose_delta_base_skip_delta (fun _ => none) (fun _ => 0) 1 1
      (mkNode 6 (some 10) 6 (some (mkRep 6))) false).2.1 (by decide) (by decide)

/-- Flag accumulated by the predecessor walk equals the disjunction of the
shared-rep condition over the visited nodes. -/
theorem walkBack_flag (g : Nat → Option NodeRevision) (props : Bool) :
    ∀ (n : Nat) (base : NodeRevision) (s : Bool) (b : NodeRevision) (f : Bool)
      (l : List NodeRevision),
      walkBack g props n base s = Except.ok (b, f) →
      walkVisited g n base = Except.ok l →
      f = (s || l.any (maybeSharedCond props)) := by
  intro n
  induction n with
  | zero =>
    intro base s b f l hw hv
    simp [walkBack] at hw
    simp [walkVisited] at hv
    subst hv
    simp [hw.2]
  | succ k ih =>
    intro base s b f l hw hv
    unfold walkBack at hw
    unfold walkVisited at hv
    cases hp : base.predecessor_id with
    | none => simp [hp] at hw
    | some pid =>
      simp only [hp] at hw hv
      cases hg : g pid with
      | none => simp [hg] at hw
      | some nb =>
        simp only [hg] at hw hv
        cases hv2 : walkVisited g k nb with
        | error e => simp [hv2] at hv
        | ok l2 =>
          simp only [hv2] at hv
          injection hv with hl
          subst hl
          have := ih nb (s || maybeSharedCond props nb) b f l2 hw hv2
          subst this
          simp [Bool.or_assoc]

/-- C6 counterexample: a one-step walk reaches a predecessor whose data
rep has revision 0 while the owner's id revision is 1; the code flags it
and, with a long enough chain, discards the chosen base, although the
claim's condition (rep revision greater than the owner's id revision) is
false for every visited node. -/
theorem choose_delta_base_shared_flag_counterexample :
    choose_delta_base
        (fun i => if i = 0 then some (mkNode 1 none 0 (some (mkRep 0)))
                  else none)
        (fun _ => 6) 2 10 (mkNode 1 (some 0) 1 (some (mkRep 1))) false
      = Except.ok none
    ∧ walkVisited
        (fun i => if i = 0 then some (mkNode 1 none 0 (some (mkRep 0)))
                  else none)
        1 (mkNode 1 (some 0) 1 (some (mkRep 1)))
      = Except.ok [mkNode 1 none 0 (some (mkRep 0))]
    ∧ claimSharedCond false (mkNode 1 none 0 (some (mkRep 0))) = false :=
  ⟨rfl, rfl, rfl⟩

/-- C6 amended: during the predecessor walk a walked noderev is flagged as
a possible shared rep exactly when its (prop or data, per the caller) rep
exists and satisfies revision < id_rev(owner); if any walked node was so
flagged and the delta chain length rooted at the chosen base rep is at
least 2 * max_linear_deltification + 2, the base is discarded and no base
is returned. -/
theorem choose_delta_base_shared_flag (g : Nat → Option NodeRevision)
    (props : Bool) (n : Nat) (base b : NodeRevision) (s f : Bool)
    (l : List NodeRevision) (ml : Nat) (chainLen : Representation → Nat)
    (hw : walkBack g props n base s = Except.ok (b, f))
    (hv : walkVisited g n base = Except.ok l) :
    f = (s || l.any (maybeSharedCond props))
    ∧ (∀ nd : NodeRevision, maybeSharedCond props nd = true
         ↔ (∃ r, (if props then nd.prop_rep else nd.data_rep) = some r
                 ∧ r.revision < nd.id_rev))
    ∧ (∀ r : Representation,
        applySharedRepGuard ml chainLen f (some r)
          = if f = true ∧ 2 * ml + 2 ≤ chainLen r then none else some r) := by
  refine ⟨walkBack_flag g props n base s b f l hw hv, ?_, ?_⟩
  · intro nd
    unfold maybeSharedCond
    cases props <;> [cases hd : nd.data_rep; cases hd : nd.prop_rep] <;>
      simp [hd]
  · intro r
    unfold applySharedRepGuard
    cases f <;> by_cases hc : 2 * ml + 2 ≤ chainLen r <;> simp [hc]

/-- Witness instantiating the C6 amended theorem on the one-step walk of
the counterexample input: the flag is raised because the visited node's
data rep has a smaller revision than its owner's id revision, and the
guard with chain length 6 at max_linear_deltification 2 discards the
base. -/
theorem choose_delta_base_shared_flag_witness :
    (true = (false
        || [mkNode 1 none 0 (some (mkRep 0))].any (maybeSharedCond false)))
    ∧ applySharedRepGuard 2 (fun _ => 6) true (some (mkRep 0)) = none := by
  have h := choose_delta_base_shared_flag
    (fun i => if i = 0 then some (mkNode 1 none 0 (some (mkRep 0))) else none)
    false 1 (mkNode 1 (some 0) 1 (some (mkRep 1)))
    (mkNode 1 none 0 (some (mkRep 0))) false true
    [mkNode 1 none 0 (some (mkRep 0))] 2 (fun _ => 6) rfl rfl
  refine ⟨h.1, ?_⟩
  rw [h.2.2 (mkRep 0)]
  simp [mkRep]

/-- C9 counterexample: a candidate root noderev with predecessor_count -1
(unknown) violates the continuity equation, yet validate_root_noderev
accepts it instead of aborting with CORRUPT. -/
theorem validate_root_noderev_counterexample :
    validate_root_noderev 0 (-1) 1 = Except.ok ()
    ∧ ((-1 : Int) - 0 ≠ (1 : Int) - ((1 : Int) - 1)) := by
  refine ⟨rfl, by decide⟩

/-- C9 amended: when the root noderev is written during final revision
assembly for new revision r, the committer accepts the root exactly when
r is positive and either the root's predecessor_count is -1 (unknown, so
the check is skipped) or it exceeds the head root's predecessor_count by
exactly r minus the head revision (i.e. one); on a detected mismatch the
commit aborts with CORRUPT before anything is published, so the head is
unchanged. -/
theorem validate_root_noderev_amended :
    (∀ head_pred root_pred rev : Int,
        validate_root_noderev head_pred root_pred rev = Except.ok ()
          ↔ (0 < rev ∧ (root_pred = -1 ∨ root_pred - head_pred = 1)))
    ∧ (∀ (st : FsState) (txn : Txn) (ext : CommitOracles) (e : FsErr),
        txn.base_rev = st.current →
        ext.verifyLocks = Except.ok () →
        ext.getProtoRev = Except.ok () →
        ext.writeFinalRev = Except.error e →
        commit_body st txn ext = (st, Except.error e)) := by
  constructor
  · intro hp rp rev
    unfold validate_root_noderev
    by_cases h1 : rev ≤ 0
    · simp [h1]
    · by_cases h2 : rp = -1
      · simp [h1, h2]
        omega
      · by_cases h3 : rp - hp = rev - (rev - 1)
        · simp [h1, h2, h3]
          omega
        · simp [h1, h2, h3]
          omega
  · intro st txn ext e hb hv hg hw
    unfold commit_body
    simp [hb, hv, hg, hw]

/-- Witness instantiating the C9 amended theorem: a root with
predecessor_count 5 over a head count of 4 passes for revision 1, and a
CORRUPT failure of the final-rev writer aborts the commit with the state
unchanged. -/
theorem validate_root_noderev_amended_witness :
    validate_root_noderev 4 5 1 = Except.ok ()
    ∧ commit_body { current := 5, revs := [5], txn_present := true }
        { base_rev := 5 }
        { verifyLocks := Except.ok (), getProtoRev := Except.ok (),
          writeFinalRev := Except.error FsErr.corrupt,
          writeChangedPaths := Except.ok 0,
          writeTrailerFlushClose := Except.ok (),
          cleanupTxnProps := Except.ok (),
          moveRevFileIntoPlace := Except.ok (),
          unlockProtoRev := Except.ok (),
          moveRevPropsIntoPlace := Except.ok (),
          verifyBeforeBump := Except.ok (),
          writeCurrent := Except.ok (), purgeTxn := Except.ok () }
        = ({ current := 5, revs := [5], txn_present := true },
           Except.error FsErr.corrupt) :=
  ⟨(validate_root_noderev_amended.1 4 5 1).mpr (by decide),
   validate_root_noderev_amended.2 _ _ _ _ rfl rfl rfl rfl⟩

end SvnFsFs
